import Mathlib

/-!
Shallow embedding of `gatekeeper_agent.py` from the clinical_copilot
repository: the Gatekeeper Agent (Router) that validates incoming actions
and routes them to the Patient and Examination sub-agents (Responders).
-/

namespace ClinicalCopilot

/-- Modelled from the spec: `ActionType` is defined in `data_models.py`,
which is not among the provided sources.  The spec describes an enumerated
tag with the two known values `ASK_QUESTION` / `REQUEST_TEST` (named
`ASK_QUESTIONS` / `REQUEST_TESTS` where `gatekeeper_agent.py` references
them); both `validate_request` and `process_action` have a fall-through
branch for any other value, so the embedding adds an `other` constructor
carrying an arbitrary tag string. -/
inductive ActionType where
  | ASK_QUESTIONS : ActionType
  | REQUEST_TESTS : ActionType
  | other : String → ActionType
deriving DecidableEq, Repr

/-- Modelled from the spec: `AgentAction` is defined in `data_models.py`,
which is not among the provided sources.  The spec describes a request
record with an `action_type` tag and free-text `content`, which is exactly
how `gatekeeper_agent.py` consumes it. -/
structure AgentAction where
  action_type : ActionType
  content : String
deriving DecidableEq, Repr

/-- The Patient Responder collaborator: opaque to the Router except for its
`answer_question` capability.  The case-file type `κ` and response type `ρ`
are opaque pass-through parameters. -/
structure PatientAgent (κ ρ : Type) where
  answer_question : String → κ → ρ

/-- The Examination Responder collaborator: opaque to the Router except for
its `fetch_result` capability. -/
structure ExaminationAgent (κ ρ : Type) where
  fetch_result : String → κ → ρ

/-- The Gatekeeper (Router): holds the configuration value and the two
responder references, set at construction and never reassigned. -/
structure GatekeeperAgent (σ κ ρ : Type) where
  config : σ
  patient_agent : PatientAgent κ ρ
  examination_agent : ExaminationAgent κ ρ

/-- A Python exception as surfaced by `process_action`: the source raises
`ValueError(f"Gatekeeper cannot process action type: {action.action_type}")`. -/
inductive PyError where
  | valueError : String → PyError
deriving DecidableEq, Repr

/-- Modelled from the spec: the rendering of an `ActionType` inside the
f-string of the `ValueError`; the enum lives in the missing
`data_models.py`, so the rendering of the two known tags follows Python
enum conventions and an unknown tag renders as its tag string. -/
def ActionType.pyStr : ActionType → String
  | .ASK_QUESTIONS => "ActionType.ASK_QUESTIONS"
  | .REQUEST_TESTS => "ActionType.REQUEST_TESTS"
  | .other tag => tag

/-- Embedding of Python `str.lower()` (character-wise lower-casing; all
phrase and content characters of interest are ASCII). -/
def pyLower (s : String) : String :=
  ⟨s.data.map Char.toLower⟩

/-- Embedding of the Python substring test `sub in s` as decidable
contiguous-sublist containment on the character lists. -/
def pyIn (sub s : String) : Bool :=
  decide (sub.data <:+: s.data)

/-- The `broad_indicators` list of `validate_request`, verbatim from the
source — including the upper-case `I` in the third phrase. -/
def broad_indicators : List String :=
  ["tell me everything", "what\x27s wrong", "what should I do",
   "give me all information", "summarize the case"]

/-- The `vague_indicators` list of `validate_request`, verbatim. -/
def vague_indicators : List String :=
  ["run blood work", "do some imaging", "order labs",
   "get tests", "run diagnostics"]

/-- The rejection message for overly broad questions, verbatim. -/
def broad_message : String :=
  "Please ask more specific questions about the patient\x27s history or examination findings."

/-- The rejection message for vague test requests, verbatim. -/
def vague_message : String :=
  "Please specify the exact test you would like to order (e.g., \x27Complete Blood Count\x27, \x27CT of the abdomen with contrast\x27)."

/-- `GatekeeperAgent.process_action`: dispatch strictly by `action_type`,
delegating to the matching responder with `(action.content, case_file)`;
any other type raises `ValueError`.  A raised exception is embedded as
`Except.error`, a normal return as `Except.ok`. -/
def GatekeeperAgent.process_action {σ κ ρ : Type} (self : GatekeeperAgent σ κ ρ)
    (action : AgentAction) (case_file : κ) : Except PyError ρ :=
  if action.action_type = ActionType.ASK_QUESTIONS then
    Except.ok (self.patient_agent.answer_question action.content case_file)
  else if action.action_type = ActionType.REQUEST_TESTS then
    Except.ok (self.examination_agent.fetch_result action.content case_file)
  else
    Except.error (PyError.valueError
      ("Gatekeeper cannot process action type: " ++ action.action_type.pyStr))

/-- `GatekeeperAgent.validate_request`: for `ASK_QUESTIONS`, lower-case the
content and reject when any broad indicator occurs as a substring; for
`REQUEST_TESTS`, the same with the vague indicators; any other type passes.
The source's first-match `for` loop returns a fixed message, so it is
equivalently an existence test (`List.any`). -/
def GatekeeperAgent.validate_request {σ κ ρ : Type} (self : GatekeeperAgent σ κ ρ)
    (action : AgentAction) : Bool × String :=
  if action.action_type = ActionType.ASK_QUESTIONS then
    let question_lower := pyLower action.content
    if broad_indicators.any (fun indicator => pyIn indicator question_lower) then
      (false, broad_message)
    else
      (true, "")
  else if action.action_type = ActionType.REQUEST_TESTS then
    let test_lower := pyLower action.content
    if vague_indicators.any (fun indicator => pyIn indicator test_lower) then
      (false, vague_message)
    else
      (true, "")
  else
    (true, "")

/-- A concrete Gatekeeper instance used by witnesses (case files are `Nat`,
responses are `String`). -/
def gW : GatekeeperAgent Unit Nat String where
  config := ()
  patient_agent := ⟨fun q _ => "patient: " ++ q⟩
  examination_agent := ⟨fun t _ => "exam: " ++ t⟩

/-- A second concrete Gatekeeper instance over different opaque types, used
by the purity witness. -/
def gW2 : GatekeeperAgent Bool Unit Nat where
  config := true
  patient_agent := ⟨fun q _ => q.length⟩
  examination_agent := ⟨fun _ _ => 0⟩

/-- `pyIn` decides contiguous-substring containment. -/
theorem pyIn_eq_true_iff {sub s : String} : pyIn sub s = true ↔ sub.data <:+: s.data := by
  simp [pyIn]

/-- C1: `process_action` on `ASK_QUESTIONS` forwards exactly
`(action.content, case_file)` to the Patient Responder's `answer_question`
and returns its result unchanged, and on `REQUEST_TESTS` it forwards
exactly `(action.content, case_file)` to the Examination Responder's
`fetch_result` and returns its result unchanged — for every action of that
type, with no validation hypothesis (so also for actions `validate_request`
would reject). -/
theorem process_action_forwards {σ κ ρ : Type} (g : GatekeeperAgent σ κ ρ)
    (action : AgentAction) (cf : κ) :
    (action.action_type = ActionType.ASK_QUESTIONS →
      g.process_action action cf =
        Except.ok (g.patient_agent.answer_question action.content cf)) ∧
    (action.action_type = ActionType.REQUEST_TESTS →
      g.process_action action cf =
        Except.ok (g.examination_agent.fetch_result action.content cf)) := by
  constructor <;> intro h <;> simp [GatekeeperAgent.process_action, h]

/-- Witness for C1 at concrete inputs: one `ASK_QUESTIONS` action rejected
by nobody, and one `REQUEST_TESTS` action, both forwarded verbatim. -/
theorem process_action_forwards_witness :
    gW.process_action ⟨ActionType.ASK_QUESTIONS, "Does the patient have a fever?"⟩ 7 =
      Except.ok (gW.patient_agent.answer_question "Does the patient have a fever?" 7) ∧
    gW.process_action ⟨ActionType.REQUEST_TESTS, "Complete Blood Count"⟩ 7 =
      Except.ok (gW.examination_agent.fetch_result "Complete Blood Count" 7) :=
  ⟨(process_action_forwards gW ⟨ActionType.ASK_QUESTIONS, "Does the patient have a fever?"⟩ 7).1 rfl,
   (process_action_forwards gW ⟨ActionType.REQUEST_TESTS, "Complete Blood Count"⟩ 7).2 rfl⟩

/-- C2: evaluating `validate_request` at the claimed failing input.  The
content "What should I do next?" matches the broad phrase "what should I do"
case-insensitively, yet `validate_request` ACCEPTS it: the stored indicator
contains an upper-case `I` while the question is lower-cased before the
substring test, so that indicator can never fire. -/
theorem validate_what_should_i_do_accepted :
    gW.validate_request ⟨ActionType.ASK_QUESTIONS, "What should I do next?"⟩ = (true, "") ∧
    "what should I do" ∈ broad_indicators := by
  constructor
  · decide
  · decide

/-- C3: every `ASK_QUESTIONS` action whose lower-cased content contains some
phrase of `broad_indicators` as a substring is rejected with the
specific-question message. -/
theorem validate_broad_rejects {σ κ ρ : Type} (g : GatekeeperAgent σ κ ρ)
    (action : AgentAction) (htype : action.action_type = ActionType.ASK_QUESTIONS)
    (hcontains : ∃ p ∈ broad_indicators, p.data <:+: (pyLower action.content).data) :
    g.validate_request action = (false, broad_message) := by
  obtain ⟨p, hp, hinf⟩ := hcontains
  have hany : broad_indicators.any (fun i => pyIn i (pyLower action.content)) = true := by
    rw [List.any_eq_true]
    exact ⟨p, hp, pyIn_eq_true_iff.mpr hinf⟩
  simp [GatekeeperAgent.validate_request, htype, hany]

/-- Witness for C3: "Tell me everything about this patient" contains the
broad phrase "tell me everything" after lower-casing and is rejected. -/
theorem validate_broad_rejects_witness :
    gW.validate_request ⟨ActionType.ASK_QUESTIONS, "Tell me everything about this patient"⟩ =
      (false, broad_message) :=
  validate_broad_rejects gW ⟨ActionType.ASK_QUESTIONS, "Tell me everything about this patient"⟩
    rfl (by decide)

/-- C4: every `ASK_QUESTIONS` action whose lower-cased content contains no
phrase of `broad_indicators` as a substring is accepted with an empty
message. -/
theorem validate_broad_accepts {σ κ ρ : Type} (g : GatekeeperAgent σ κ ρ)
    (action : AgentAction) (htype : action.action_type = ActionType.ASK_QUESTIONS)
    (hnone : ∀ p ∈ broad_indicators, ¬ p.data <:+: (pyLower action.content).data) :
    g.validate_request action = (true, "") := by
  have hany : broad_indicators.any (fun i => pyIn i (pyLower action.content)) = false := by
    rw [List.any_eq_false]
    intro p hp
    simpa [pyIn_eq_true_iff] using hnone p hp
  simp [GatekeeperAgent.validate_request, htype, hany]

/-- Witness for C4: a specific question contains no broad phrase and is
accepted. -/
theorem validate_broad_accepts_witness :
    gW.validate_request ⟨ActionType.ASK_QUESTIONS, "Does the patient have a fever?"⟩ =
      (true, "") :=
  validate_broad_accepts gW ⟨ActionType.ASK_QUESTIONS, "Does the patient have a fever?"⟩
    rfl (by decide)

/-- C5: a `REQUEST_TESTS` action is rejected with the exact-test message
precisely when its lower-cased content contains some phrase of
`vague_indicators` as a substring; otherwise it is accepted with an empty
message. -/
theorem validate_request_tests {σ κ ρ : Type} (g : GatekeeperAgent σ κ ρ)
    (action : AgentAction) (htype : action.action_type = ActionType.REQUEST_TESTS) :
    ((∃ p ∈ vague_indicators, p.data <:+: (pyLower action.content).data) →
      g.validate_request action = (false, vague_message)) ∧
    ((∀ p ∈ vague_indicators, ¬ p.data <:+: (pyLower action.content).data) →
      g.validate_request action = (true, "")) := by
  constructor
  · rintro ⟨p, hp, hinf⟩
    have hany : vague_indicators.any (fun i => pyIn i (pyLower action.content)) = true := by
      rw [List.any_eq_true]
      exact ⟨p, hp, pyIn_eq_true_iff.mpr hinf⟩
    simp [GatekeeperAgent.validate_request, htype, hany]
  · intro hnone
    have hany : vague_indicators.any (fun i => pyIn i (pyLower action.content)) = false := by
      rw [List.any_eq_false]
      intro p hp
      simpa [pyIn_eq_true_iff] using hnone p hp
    simp [GatekeeperAgent.validate_request, htype, hany]

/-- Witness for C5: "order labs" is rejected as vague; "Complete Blood
Count" is accepted. -/
theorem validate_request_tests_witness :
    gW.validate_request ⟨ActionType.REQUEST_TESTS, "order labs"⟩ = (false, vague_message) ∧
    gW.validate_request ⟨ActionType.REQUEST_TESTS, "Complete Blood Count"⟩ = (true, "") :=
  ⟨(validate_request_tests gW ⟨ActionType.REQUEST_TESTS, "order labs"⟩ rfl).1 (by decide),
   (validate_request_tests gW ⟨ActionType.REQUEST_TESTS, "Complete Blood Count"⟩ rfl).2 (by decide)⟩

/-- C6: an action whose type is neither `ASK_QUESTIONS` nor `REQUEST_TESTS`
always passes validation with an empty message, whatever its content. -/
theorem validate_other_passes {σ κ ρ : Type} (g : GatekeeperAgent σ κ ρ)
    (action : AgentAction) (h1 : action.action_type ≠ ActionType.ASK_QUESTIONS)
    (h2 : action.action_type ≠ ActionType.REQUEST_TESTS) :
    g.validate_request action = (true, "") := by
  simp [GatekeeperAgent.validate_request, h1, h2]

/-- Witness for C6: an unknown action type with broad content still passes
validation. -/
theorem validate_other_passes_witness :
    gW.validate_request ⟨ActionType.other "MAKE_DIAGNOSIS", "tell me everything"⟩ =
      (true, "") :=
  validate_other_passes gW ⟨ActionType.other "MAKE_DIAGNOSIS", "tell me everything"⟩
    (by decide) (by decide)

/-- C7: `process_action` on an action whose type is neither `ASK_QUESTIONS`
nor `REQUEST_TESTS` raises the dispatch-failure `ValueError`; the result is
the same for every Gatekeeper (hence for every pair of responders), so
neither responder is invoked, and the error is returned to the caller
rather than swallowed. -/
theorem process_action_unsupported {σ κ ρ : Type} (g : GatekeeperAgent σ κ ρ)
    (action : AgentAction) (cf : κ)
    (h1 : action.action_type ≠ ActionType.ASK_QUESTIONS)
    (h2 : action.action_type ≠ ActionType.REQUEST_TESTS) :
    g.process_action action cf = Except.error (PyError.valueError
      ("Gatekeeper cannot process action type: " ++ action.action_type.pyStr)) := by
  simp [GatekeeperAgent.process_action, h1, h2]

/-- Witness for C7: dispatching an unknown action type fails with the
`ValueError`. -/
theorem process_action_unsupported_witness :
    gW.process_action ⟨ActionType.other "MAKE_DIAGNOSIS", "lupus"⟩ 7 =
      Except.error (PyError.valueError
        ("Gatekeeper cannot process action type: " ++ (ActionType.other "MAKE_DIAGNOSIS").pyStr)) :=
  process_action_unsupported gW ⟨ActionType.other "MAKE_DIAGNOSIS", "lupus"⟩ 7
    (by decide) (by decide)

/-- C8: `validate_request` is a pure function of `action_type` and
`content` alone: two calls on any two Gatekeeper states (even over
different configuration, case-file and response types) whose actions agree
on both fields return the same `(ok, message)` pair; the embedding returns
only that pair, reflecting that the source method reads nothing but the
action and mutates nothing. -/
theorem validate_request_pure {σ₁ κ₁ ρ₁ σ₂ κ₂ ρ₂ : Type}
    (g₁ : GatekeeperAgent σ₁ κ₁ ρ₁) (g₂ : GatekeeperAgent σ₂ κ₂ ρ₂)
    (a₁ a₂ : AgentAction) (ht : a₁.action_type = a₂.action_type)
    (hc : a₁.content = a₂.content) :
    g₁.validate_request a₁ = g₂.validate_request a₂ := by
  cases a₁
  cases a₂
  dsimp at ht hc
  subst ht
  subst hc
  rfl

/-- Witness for C8: two Gatekeepers over different opaque types agree on
the same action. -/
theorem validate_request_pure_witness :
    gW.validate_request ⟨ActionType.ASK_QUESTIONS, "what is wrong here"⟩ =
      gW2.validate_request ⟨ActionType.ASK_QUESTIONS, "what is wrong here"⟩ :=
  validate_request_pure gW gW2 ⟨ActionType.ASK_QUESTIONS, "what is wrong here"⟩
    ⟨ActionType.ASK_QUESTIONS, "what is wrong here"⟩ rfl rfl

/-- Lower-casing fixes whitespace characters. -/
theorem toLower_of_whitespace {c : Char} (h : c.isWhitespace = true) :
    Char.toLower c = c := by
  have hc : ((c = ' ' ∨ c = '\t') ∨ c = '\r') ∨ c = '\n' := by
    simpa [Char.isWhitespace, decide_eq_true_eq] using h
  rcases hc with ((h | h) | h) | h <;> subst h <;> rfl

/-- A phrase holding a non-whitespace character is not a substring of an
all-whitespace string. -/
theorem no_ws_infix {p s : List Char} (hp : p.any (fun c => !c.isWhitespace) = true)
    (hs : ∀ c ∈ s, c.isWhitespace = true) : ¬ p <:+: s := by
  intro hinf
  rw [List.any_eq_true] at hp
  obtain ⟨c, hc, hcw⟩ := hp
  have hmem := hinf.subset hc
  have := hs c hmem
  simp [this] at hcw

/-- Every validation phrase of either list holds a non-whitespace
character. -/
theorem indicators_have_nonws :
    ∀ p ∈ broad_indicators ++ vague_indicators,
      p.data.any (fun c => !c.isWhitespace) = true := by decide

/-- C9: content that is empty or whitespace-only passes validation with an
empty message for both `ASK_QUESTIONS` and `REQUEST_TESTS` (the empty
string has no characters, so the hypothesis holds vacuously for it). -/
theorem validate_blank_content_passes {σ κ ρ : Type} (g : GatekeeperAgent σ κ ρ)
    (content : String) (hws : ∀ c ∈ content.data, c.isWhitespace = true) :
    g.validate_request ⟨ActionType.ASK_QUESTIONS, content⟩ = (true, "") ∧
    g.validate_request ⟨ActionType.REQUEST_TESTS, content⟩ = (true, "") := by
  have hlow : ∀ c ∈ (pyLower content).data, c.isWhitespace = true := by
    intro c hc
    rw [pyLower] at hc
    simp only [List.mem_map] at hc
    obtain ⟨c0, hc0, rfl⟩ := hc
    rw [toLower_of_whitespace (hws c0 hc0)]
    exact hws c0 hc0
  constructor
  · refine validate_broad_accepts g _ rfl ?_
    intro p hp
    exact no_ws_infix (indicators_have_nonws p (List.mem_append_left _ hp)) hlow
  · refine (validate_request_tests g _ rfl).2 ?_
    intro p hp
    exact no_ws_infix (indicators_have_nonws p (List.mem_append_right _ hp)) hlow

/-- Witness for C9: the empty string and a whitespace-only string both pass
for both action types. -/
theorem validate_blank_content_passes_witness :
    (gW.validate_request ⟨ActionType.ASK_QUESTIONS, ""⟩ = (true, "") ∧
      gW.validate_request ⟨ActionType.REQUEST_TESTS, ""⟩ = (true, "")) ∧
    (gW.validate_request ⟨ActionType.ASK_QUESTIONS, "  "⟩ = (true, "") ∧
      gW.validate_request ⟨ActionType.REQUEST_TESTS, "  "⟩ = (true, "")) :=
  ⟨validate_blank_content_passes gW "" (by decide),
   validate_blank_content_passes gW "  " (by decide)⟩

/-- C10: for every action, `validate_request` returns `ok = true` exactly
when the returned message is empty, and every rejection message is one of
the two fixed guidance messages. -/
theorem validate_message_invariant {σ κ ρ : Type} (g : GatekeeperAgent σ κ ρ)
    (a : AgentAction) :
    ((g.validate_request a).1 = true ↔ (g.validate_request a).2 = "") ∧
    ((g.validate_request a).1 = false →
      (g.validate_request a).2 = broad_message ∨ (g.validate_request a).2 = vague_message) := by
  obtain ⟨t, c⟩ := a
  by_cases h1 : t = ActionType.ASK_QUESTIONS
  · by_cases h2 : broad_indicators.any (fun i => pyIn i (pyLower c)) = true
    · simp [GatekeeperAgent.validate_request, h1, h2, broad_message]
    · simp [GatekeeperAgent.validate_request, h1, h2]
  · by_cases h3 : t = ActionType.REQUEST_TESTS
    · by_cases h2 : vague_indicators.any (fun i => pyIn i (pyLower c)) = true
      · simp [GatekeeperAgent.validate_request, h1, h3, h2, vague_message]
      · simp [GatekeeperAgent.validate_request, h1, h3, h2]
    · simp [GatekeeperAgent.validate_request, h1, h3]

/-- Witness for C10: applying the invariant to a rejected broad question
yields one of the two fixed messages. -/
theorem validate_message_invariant_witness :
    (gW.validate_request ⟨ActionType.ASK_QUESTIONS, "summarize the case"⟩).2 = broad_message ∨
    (gW.validate_request ⟨ActionType.ASK_QUESTIONS, "summarize the case"⟩).2 = vague_message :=
  (validate_message_invariant gW ⟨ActionType.ASK_QUESTIONS, "summarize the case"⟩).2 (by decide)

end ClinicalCopilot
